import Mathlib

/-!
Verification of the handle-wrapping binding layer (`src/wonderland.ts`).

Each definition below is a shallow embedding of the corresponding
TypeScript function or class of the source file; stateful code is modelled
by explicit state passing, JavaScript `undefined`/`null` field values by
`Option`, thrown errors by `Except.error`, and calls into the native
runtime by records of the arguments that are passed across the boundary.
-/

/- ## Scratch arena (temporary WASM memory)

The host-side temporary-memory state that `allocateTempMemory` /
`requireTempMem` manipulate is fully described, for the size claims, by the
current capacity `_tempMemSize : Nat`.  `allocateTempMemory(size)` frees the
old block, allocates a new one and sets `_tempMemSize = size`; its effect on
the capacity is the function below. -/

/-- Embeds `allocateTempMemory` (wonderland.ts:686-692): sets
`_tempMemSize` to the requested size (the malloc/free and view rebuilding
have no effect on the capacity). -/
def allocateTempMemory (size : Nat) : Nat := size

/-- Embeds `requireTempMem` (wonderland.ts:694-698): keeps the capacity if
it already suffices, otherwise grows in 1kb increments via
`allocateTempMemory(Math.ceil(size / 1024) * 1024)`.  On natural numbers
`Math.ceil(size / 1024)` is `(size + 1023) / 1024`. -/
def requireTempMem (tempMemSize size : Nat) : Nat :=
  if size ≤ tempMemSize then tempMemSize
  else allocateTempMemory ((size + 1023) / 1024 * 1024)

/- ## Identity cache (`_wrapObject` / `_wrapComponent`)

`ObjectCache` and `ComponentCache` are global arrays mapping a handle to a
previously constructed wrapper.  Reference identity of JavaScript wrapper
objects is modelled by tagging every allocated wrapper with a distinct
natural number (`nextWrapper` is the allocation counter): two wrappers are
the same instance iff they carry the same tag. -/

structure WrapState where
  /-- `ObjectCache`: object id → wrapper instance (tag), when present. -/
  objectCache : Nat → Option Nat
  /-- The `objectId` field of each allocated `$Object` wrapper instance. -/
  objectIdField : Nat → Nat
  /-- `ComponentCache`: manager index → component id → wrapper instance. -/
  componentCache : Nat → Int → Option Nat
  /-- The variant-selecting type string together with the `_manager` and
  `_id` fields set on a component wrapper when it is created (the cache-hit
  path of `_wrapComponent` touches none of them). -/
  componentFields : Nat → Option (String × Nat × Int)
  /-- Allocation counter standing for object identity of fresh wrappers. -/
  nextWrapper : Nat

/-- Embeds `_wrapObject` (wonderland.ts:4351-4355): reuse the cached
wrapper when present, otherwise construct `new $Object(objectId)` and
cache it; in both cases assign `o.objectId = objectId` before returning. -/
def _wrapObject (objectId : Nat) (s : WrapState) : Nat × WrapState :=
  match s.objectCache objectId with
  | some o =>
      (o, { s with objectIdField := fun w => if w = o then objectId else s.objectIdField w })
  | none =>
      let o := s.nextWrapper
      (o, { s with
              objectCache := fun h => if h = objectId then some o else s.objectCache h
              objectIdField := fun w => if w = o then objectId else s.objectIdField w
              nextWrapper := s.nextWrapper + 1 })

/-- Embeds `_wrapComponent` (wonderland.ts:4369-4406): `null` for a
negative component id; otherwise look the wrapper up in the per-manager
cache and return it on a hit, else construct the variant selected by
`type` (which only decides the concrete class, not the caching), set its
`_manager` and `_id` fields, cache it and return it. -/
def _wrapComponent (type : String) (componentType : Nat) (componentId : Int)
    (s : WrapState) : Option Nat × WrapState :=
  if componentId < 0 then (none, s)
  else
    match s.componentCache componentType componentId with
    | some c => (some c, s)
    | none =>
        let c := s.nextWrapper
        (some c, { s with
              componentCache := fun m i =>
                if m = componentType ∧ i = componentId then some c
                else s.componentCache m i
              componentFields := fun w =>
                if w = c then some (type, componentType, componentId)
                else s.componentFields w
              nextWrapper := s.nextWrapper + 1 })

/-- The state before any wrapper has been constructed: both caches empty
(`ObjectCache = {}`, `ComponentCache = {}`). -/
def emptyWrapState : WrapState where
  objectCache := fun _ => none
  objectIdField := fun _ => 0
  componentCache := fun _ _ => none
  componentFields := fun _ => none
  nextWrapper := 0

/- ## Mesh attribute accessor

`MeshAttributeAccessor.get`/`set` first validate the caller's buffer
length and only then invoke `_wl_mesh_get_attribute_values` /
`_wl_mesh_set_attribute_values`; a thrown error is `Except.error` and a
performed native call is the record of the arguments passed to it.  The
copy through the temporary WASM buffer is value-preserving and carries no
logic of its own, so the embedding keeps the staged values and lengths. -/

/-- The accessor's backing typed-array class `_bufferType`
(wonderland.ts:2655-2675): `Float32Array` for the float attributes,
`Uint16Array` for the joint-id attributes. -/
inductive MeshBufferType
  | float32Array
  | uint16Array
deriving DecidableEq

/-- `BYTES_PER_ELEMENT` of the backing typed-array class. -/
def MeshBufferType.bytesPerElement : MeshBufferType → Nat
  | .float32Array => 4
  | .uint16Array => 2

/-- Embeds the fields of `MeshAttributeAccessor` (wonderland.ts:2622-2645). -/
structure MeshAttributeAccessor where
  _attribute : Int
  _offset : Nat
  _stride : Nat
  _formatSize : Nat
  _componentCount : Nat
  length : Nat
  _bufferType : MeshBufferType
deriving DecidableEq

/-- Arguments of `_wl_mesh_get_attribute_values` exactly as `get` passes
them (wonderland.ts:2728-2736). -/
structure MeshGetNativeArgs where
  attributeIndex : Int
  formatSize : Nat
  srcOffset : Nat
  stride : Nat
  destFormatSize : Nat
  bytes : Nat
deriving DecidableEq

/-- Arguments of `_wl_mesh_set_attribute_values` exactly as `set` passes
them (wonderland.ts:2773-2781), together with the values staged into the
temporary buffer. -/
structure MeshSetNativeArgs where
  attributeIndex : Int
  srcFormatSize : Nat
  staged : List ℚ
  bytes : Nat
  formatSize : Nat
  destOffset : Nat
  stride : Nat
deriving DecidableEq

/-- The error message thrown by `get`/`set` on a length that is not a
multiple of the component count (both methods use the `out.length`
wording). -/
def multipleErrMsg (len componentCount : Nat) : String :=
  "out.length, " ++ toString len ++
    " is not a multiple of the attribute vector components, " ++
    toString componentCount

/-- Embeds `MeshAttributeAccessor.get` (wonderland.ts:2717-2740): throw
when `out.length` is not a multiple of `_componentCount`, otherwise call
the native getter; `out` enters only through its length, since its
contents are overwritten by the read-back copy. -/
def MeshAttributeAccessor.get (a : MeshAttributeAccessor) (index : Nat)
    (outLen : Nat) : Except String MeshGetNativeArgs :=
  if outLen % a._componentCount ≠ 0 then
    .error (multipleErrMsg outLen a._componentCount)
  else
    .ok { attributeIndex := a._attribute
          formatSize := a._formatSize
          srcOffset := a._offset + index * a._stride
          stride := a._stride
          destFormatSize := a._componentCount * a._bufferType.bytesPerElement
          bytes := a._bufferType.bytesPerElement * outLen }

/-- Embeds `MeshAttributeAccessor.set` (wonderland.ts:2755-2784): throw
when `v.length` is not a multiple of `_componentCount`, otherwise stage
`v` into the temporary buffer (the host-array path of the aliasing check)
and call the native setter. -/
def MeshAttributeAccessor.set (a : MeshAttributeAccessor) (i : Nat)
    (v : List ℚ) : Except String MeshSetNativeArgs :=
  if v.length % a._componentCount ≠ 0 then
    .error (multipleErrMsg v.length a._componentCount)
  else
    .ok { attributeIndex := a._attribute
          srcFormatSize := a._componentCount * a._bufferType.bytesPerElement
          staged := v
          bytes := a._bufferType.bytesPerElement * v.length
          formatSize := a._formatSize
          destOffset := a._offset + i * a._stride
          stride := a._stride }

/-- Whether a thrown error escaped the call. -/
def exceptOk {α : Type} : Except String α → Bool
  | .ok _ => true
  | .error _ => false

/-- A concrete position-like accessor: 3 float components per vertex. -/
def positionAccessor : MeshAttributeAccessor where
  _attribute := 0
  _offset := 0
  _stride := 12
  _formatSize := 12
  _componentCount := 3
  length := 10
  _bufferType := .float32Array

/- ## Material dynamic property dispatch

A `Material` instance is a `Proxy` whose `get`/`set` handlers
(wonderland.ts:2847-2926) resolve the property name against the
material definition's parameter table and dispatch on the parameter's
type tag.  JavaScript values crossing the handlers are modelled by
`JSValue`; the native setters are modelled by records of their
arguments. -/

/-- Embeds the `MaterialParamType` enum (wonderland.ts:528-543). -/
inductive MaterialParamType
  | UnsignedInt
  | Int
  | Float
  | Sampler
  | Font
deriving DecidableEq

/-- The per-parameter type record `param.type`: native type tag plus
declared component count. -/
structure MaterialParamTypeInfo where
  type : MaterialParamType
  componentCount : Nat
deriving DecidableEq

/-- One entry of the material definition's parameter table. -/
structure MaterialParam where
  index : Nat
  type : MaterialParamTypeInfo
deriving DecidableEq

/-- The parameter table of one material definition: `definition.get(prop)`. -/
def MaterialDefinition : Type := String → Option MaterialParam

/-- Embeds the `Texture` wrapper as far as the material setter uses it:
it holds the native handle `_id`, exposed by the `id` getter
(wonderland.ts:2964-2997). -/
structure Texture where
  _id : Int
deriving DecidableEq

/-- The `id` getter of `Texture`. -/
def Texture.id (t : Texture) : Int := t._id

/-- JavaScript values assigned to (or produced by) material properties:
a number, a `Texture` wrapper instance, or an array of numbers. -/
inductive JSValue
  | num (x : ℚ)
  | tex (t : Texture)
  | arr (xs : List ℚ)
deriving DecidableEq

/-- JavaScript `value.length`: defined for arrays, `undefined` (`none`)
for numbers and texture wrappers. -/
def JSValue.jsLength : JSValue → Option Nat
  | .arr xs => some xs.length
  | _ => none

/-- The elements staged by the `for` copy loop of the Float branch: the
array's elements; for a value without a `length` property the loop body
never runs. -/
def JSValue.stagedFloats : JSValue → List ℚ
  | .arr xs => xs
  | _ => []

/-- Outcome of the proxy `set` handler: either the assignment falls
through to ordinary per-instance storage (`!param`), or one native setter
is invoked with the recorded arguments, or the handler throws. -/
inductive MaterialSetOutcome
  | instanceSet
  | nativeUint (matIndex paramIndex : Nat) (v : JSValue)
  | nativeFloat (matIndex paramIndex : Nat) (staged : List ℚ) (count : Option Nat)
  | error (msg : String)
deriving DecidableEq

/-- Embeds the proxy `set` handler (wonderland.ts:2889-2925).  Uint, Int
and Sampler parameters extract the handle from a `Texture` wrapper
(`value instanceof Texture ? value.id : value`) and call
`_wl_material_set_param_value_uint`; Float parameters stage a scalar with
count 1 or copy `value.length` elements and forward that length as the
count; Font parameters throw. -/
def materialSet (definition : MaterialDefinition) (matIndex : Nat)
    (prop : String) (value : JSValue) : MaterialSetOutcome :=
  match definition prop with
  | none => .instanceSet
  | some param =>
    match param.type.type with
    | .UnsignedInt | .Int | .Sampler =>
        .nativeUint matIndex param.index
          (match value with
            | .tex t => .num (t.id : ℚ)
            | v => v)
    | .Float =>
        match value with
        | .num x => .nativeFloat matIndex param.index [x] (some 1)
        | v => .nativeFloat matIndex param.index v.stagedFloats v.jsLength
    | .Font => .error "Setting font properties is currently unsupported."

/-- The native runtime state a single proxy `get` observes: whether
`_wl_material_get_param_value` reports the parameter set, and the
temporary-memory views after that call (indexed by element, as
`_tempMemUint32` / `_tempMemInt` / `_tempMemFloat` are). -/
structure NativeMaterialHeap where
  paramIsSet : Nat → Nat → Bool
  u32 : Nat → Nat
  i32 : Nat → Int
  f32 : Nat → ℚ

/-- A value materialized by the proxy `get` handler. -/
inductive MaterialGetValue
  | uintScalar (n : Nat)
  | uintVector (xs : List Nat)
  | intScalar (n : Int)
  | intVector (xs : List Int)
  | floatScalar (x : ℚ)
  | floatVector (xs : List ℚ)
  | texture (t : Texture)
deriving DecidableEq

/-- Outcome of the proxy `get` handler: fall through to per-instance
storage, the absent result (`undefined`, when the native buffer reports
the parameter unset), or a materialized value. -/
inductive MaterialGetOutcome
  | fromInstance
  | absent
  | value (v : MaterialGetValue)
deriving DecidableEq

/-- Embeds the proxy `get` handler (wonderland.ts:2848-2887): a name
absent from the table reads the instance field; otherwise, when the
native call reports the parameter set, dispatch on the type tag
(scalar for component count 1, a typed view of `componentCount` elements
otherwise, a fresh `Texture` wrapper for Sampler, and a thrown error for
a tag without a case, such as Font); when it reports the parameter unset
the handler returns `undefined`. -/
def materialGet (definition : MaterialDefinition) (matIndex : Nat)
    (prop : String) (heap : NativeMaterialHeap) :
    Except String MaterialGetOutcome :=
  match definition prop with
  | none => .ok .fromInstance
  | some param =>
    if heap.paramIsSet matIndex param.index then
      match param.type.type with
      | .UnsignedInt =>
          .ok (.value (if param.type.componentCount = 1
            then .uintScalar (heap.u32 0)
            else .uintVector ((List.range param.type.componentCount).map heap.u32)))
      | .Int =>
          .ok (.value (if param.type.componentCount = 1
            then .intScalar (heap.i32 0)
            else .intVector ((List.range param.type.componentCount).map heap.i32)))
      | .Float =>
          .ok (.value (if param.type.componentCount = 1
            then .floatScalar (heap.f32 0)
            else .floatVector ((List.range param.type.componentCount).map heap.f32)))
      | .Sampler => .ok (.value (.texture ⟨heap.i32 0⟩))
      | .Font =>
          .error ("Invalid type on parameter " ++ toString param.index ++
            " for material " ++ toString matIndex)
    else .ok .absent

/-- A concrete parameter table in the shape the engine builds for a
textured pipeline: a Font parameter, a Sampler parameter, a 4-component
Float parameter and a scalar Float parameter. -/
def sampleMaterialDefinition : MaterialDefinition := fun prop =>
  if prop = "font" then some { index := 0, type := { type := .Font, componentCount := 1 } }
  else if prop = "diffuseTexture" then
    some { index := 1, type := { type := .Sampler, componentCount := 1 } }
  else if prop = "diffuseColor" then
    some { index := 2, type := { type := .Float, componentCount := 4 } }
  else if prop = "shininess" then
    some { index := 3, type := { type := .Float, componentCount := 1 } }
  else none

/-- A native heap reporting every parameter of every material unset. -/
def unsetHeap : NativeMaterialHeap where
  paramIsSet := fun _ _ => false
  u32 := fun _ => 0
  i32 := fun _ => 0
  f32 := fun _ => 0

/- ## Component and $Object wrappers: destroy and equals

`Component` holds `_manager`/`_id` (JavaScript numbers, set to
`undefined` by `destroy`, hence `Option`), a lazily cached `_object`
wrapper and a `_type` string; `$Object` holds `objectId` (set to `null`
by `destroy`).  `destroy` emits one native remove call with the pre-clear
handles and then clears the handle fields. -/

/-- Embeds the fields of `Component` (wonderland.ts:1221-1262):
`undefined` is `none`. -/
structure Component where
  _manager : Option Int
  _id : Option Int
  _object : Option Nat
  _type : Option String
deriving DecidableEq

/-- Arguments of `_wl_component_remove` as `Component.destroy` passes
them. -/
structure ComponentRemoveArgs where
  manager : Option Int
  id : Option Int
deriving DecidableEq

/-- Embeds `Component.destroy` (wonderland.ts:1312-1320): call
`_wl_component_remove(this._manager, this._id)` and then set both fields
to `undefined`. -/
def Component.destroy (c : Component) : ComponentRemoveArgs × Component :=
  ({ manager := c._manager, id := c._id },
   { c with _manager := none, _id := none })

/-- Embeds `Component.equals` (wonderland.ts:1329-1332): `false` for a
null/undefined argument, else loose `==` on `_manager` and `_id`
(JavaScript `undefined == undefined` is true, matching `Option` equality
on `none`). -/
def Component.equals (c : Component) (other : Option Component) : Bool :=
  match other with
  | none => false
  | some o => c._manager == o._manager && c._id == o._id

/-- Embeds the fields of `$Object` (wonderland.ts:3197-3208): `objectId`
is a number, set to `null` (`none`) by `destroy`. -/
structure WLObject where
  objectId : Option Nat
deriving DecidableEq

/-- Arguments of `_wl_scene_remove_object` as `$Object.destroy` passes
them. -/
structure SceneRemoveObjectArgs where
  objectId : Option Nat
deriving DecidableEq

/-- Embeds `$Object.destroy` (wonderland.ts:3910-3914): call
`_wl_scene_remove_object(this.objectId)` and then set `objectId` to
`null`. -/
def WLObject.destroy (o : WLObject) : SceneRemoveObjectArgs × WLObject :=
  ({ objectId := o.objectId }, { objectId := none })

/-- Embeds `$Object.equals` (wonderland.ts:4123-4126): `false` for a
null/undefined argument, else loose `==` on `objectId`. -/
def WLObject.equals (o : WLObject) (other : Option WLObject) : Bool :=
  match other with
  | none => false
  | some b => o.objectId == b.objectId

/- ## RayHit

A `RayHit` is a fixed-layout view over the native heap at byte pointer
`_ptr` (constructor-asserted 4-aligned).  The heap is modelled
byte-addressed: `u32 b` is the unsigned 32-bit integer whose first byte
is `b` (so `HEAPU32[j]` reads `u32 (4 * j)`), and `f32 b` the 32-bit
float at byte `b` (so a `Float32Array` view with byte offset `p` reads
element `k` at `f32 (p + 4 * k)`). -/

/-- The native heap as the `RayHit` getters observe it. -/
structure EngineHeap where
  u32 : Nat → Nat
  f32 : Nat → ℚ

/-- Embeds the `RayHit` wrapper (wonderland.ts:4221-4231): it holds only
the block pointer. -/
structure RayHit where
  _ptr : Nat
deriving DecidableEq

/-- Embeds the `hitCount` getter (wonderland.ts:4276-4278):
`Math.min(HEAPU32[this._ptr / 4 + 30], 4)`. -/
def RayHit.hitCount (r : RayHit) (heap : EngineHeap) : Nat :=
  min (heap.u32 (4 * (r._ptr / 4 + 30))) 4

/-- Embeds the `locations` getter (wonderland.ts:4234-4241): one
3-element `Float32Array` view at byte `_ptr + 12 * i` for each
`i < hitCount`. -/
def RayHit.locations (r : RayHit) (heap : EngineHeap) : List (List ℚ) :=
  (List.range (r.hitCount heap)).map fun i =>
    (List.range 3).map fun k => heap.f32 (r._ptr + 12 * i + 4 * k)

/-- Embeds the `normals` getter (wonderland.ts:4244-4251): like
`locations` but starting at byte `_ptr + 48`. -/
def RayHit.normals (r : RayHit) (heap : EngineHeap) : List (List ℚ) :=
  (List.range (r.hitCount heap)).map fun i =>
    (List.range 3).map fun k => heap.f32 (r._ptr + 48 + 12 * i + 4 * k)

/-- A concrete heap whose native hit counter reads 2 and whose floats
read 0. -/
def sampleEngineHeap : EngineHeap where
  u32 := fun _ => 2
  f32 := fun _ => 0

/- ## Theorems -/

/-- C2. `requireTempMem` leaves the capacity unchanged when it already
suffices, otherwise reallocates to exactly `ceil(size / 1024) * 1024` —
the least multiple of 1024 that is at least the request — so the capacity
never shrinks, and requesting 1500 at capacity 1024 yields exactly 2048. -/
theorem requireTempMem_growth_policy (tempMemSize size : Nat) :
    (size ≤ tempMemSize → requireTempMem tempMemSize size = tempMemSize) ∧
    (tempMemSize < size →
      requireTempMem tempMemSize size = (size + 1023) / 1024 * 1024 ∧
      1024 ∣ requireTempMem tempMemSize size ∧
      size ≤ requireTempMem tempMemSize size ∧
      ∀ m, 1024 ∣ m → size ≤ m → requireTempMem tempMemSize size ≤ m) ∧
    tempMemSize ≤ requireTempMem tempMemSize size ∧
    requireTempMem 1024 1500 = 2048 := by
  have hle : size ≤ (size + 1023) / 1024 * 1024 := by omega
  refine ⟨fun h => by simp [requireTempMem, h], fun h => ?_, ?_, by decide⟩
  · have hif : ¬ size ≤ tempMemSize := not_le.mpr h
    have heq : requireTempMem tempMemSize size = (size + 1023) / 1024 * 1024 := by
      simp [requireTempMem, allocateTempMemory, hif]
    refine ⟨heq, heq ▸ dvd_mul_left 1024 _, heq ▸ hle, ?_⟩
    intro m hdvd hm
    obtain ⟨k, rfl⟩ := hdvd
    rw [heq]
    omega
  · by_cases h : size ≤ tempMemSize
    · simp [requireTempMem, h]
    · have heq : requireTempMem tempMemSize size = (size + 1023) / 1024 * 1024 := by
        simp [requireTempMem, allocateTempMemory, h]
      omega

/-- C2 witness: growth at capacity 1024 for request 1500 reaches 2048, and
a sufficient capacity 2048 for request 100 stays 2048. -/
theorem requireTempMem_growth_policy_witness :
    requireTempMem 1024 1500 = 2048 ∧ requireTempMem 2048 100 = 2048 := by
  constructor
  · have h := ((requireTempMem_growth_policy 1024 1500).2.1 (by norm_num)).1
    rw [h]
  · exact (requireTempMem_growth_policy 2048 100).1 (by norm_num)

/-- C1. Wrapping the same object handle twice returns the same wrapper
instance (reference equality, modelled by the wrapper tag), and the repeat
call refreshes the cached wrapper's `objectId` field to the handle; for
any component id `c ≥ 0`, `_wrapComponent` called twice with the same
manager and id returns the same cached component instance (and not
`null`). -/
theorem wrap_identity_caching (h : Nat) (type : String) (m : Nat) (c : Int)
    (s : WrapState) (hc : 0 ≤ c) :
    (_wrapObject h ((_wrapObject h s).2)).1 = (_wrapObject h s).1 ∧
    ((_wrapObject h ((_wrapObject h s).2)).2).objectIdField (_wrapObject h s).1 = h ∧
    (_wrapComponent type m c ((_wrapComponent type m c s).2)).1
      = (_wrapComponent type m c s).1 ∧
    ((_wrapComponent type m c s).1).isSome := by
  have hneg : ¬ c < 0 := not_lt.mpr hc
  refine ⟨?_, ?_, ?_, ?_⟩
  · rcases hcase : s.objectCache h with _ | o <;> simp [_wrapObject, hcase]
  · rcases hcase : s.objectCache h with _ | o <;> simp [_wrapObject, hcase]
  · rcases hcase : s.componentCache m c with _ | w <;>
      simp [_wrapComponent, hneg, hcase]
  · rcases hcase : s.componentCache m c with _ | w <;>
      simp [_wrapComponent, hneg, hcase]

/-- C1 witness: starting from empty caches, handle 5 wraps to the same
object wrapper twice with its `objectId` refreshed, and component id 3 of
manager 2 wraps to the same cached component twice. -/
theorem wrap_identity_caching_witness :
    (_wrapObject 5 ((_wrapObject 5 emptyWrapState).2)).1
      = (_wrapObject 5 emptyWrapState).1 ∧
    ((_wrapObject 5 ((_wrapObject 5 emptyWrapState).2)).2).objectIdField
      (_wrapObject 5 emptyWrapState).1 = 5 ∧
    (_wrapComponent "mesh" 2 3 ((_wrapComponent "mesh" 2 3 emptyWrapState).2)).1
      = (_wrapComponent "mesh" 2 3 emptyWrapState).1 ∧
    ((_wrapComponent "mesh" 2 3 emptyWrapState).1).isSome :=
  wrap_identity_caching 5 "mesh" 2 3 emptyWrapState (by decide)

/-- Claim C3 counterexample: length 0 is not a positive multiple of the
component count 3, yet neither `get` nor `set` raises the error — the
guard checks divisibility only, so a zero-length buffer is accepted. -/
theorem meshAccessor_zero_length_accepted :
    (¬ ∃ k, 0 < k ∧ (0 : Nat) = k * 3) ∧
    exceptOk (positionAccessor.get 2 0) = true ∧
    exceptOk (positionAccessor.set 2 []) = true := by
  refine ⟨?_, by decide, by decide⟩
  rintro ⟨k, hk, h⟩
  omega

/-- Claim C3 (amended): for every accessor with component count in
{1,2,3,4}, `get` and `set` raise the "not a multiple of the attribute
vector components" error exactly when the `out`/`values` length is not a
multiple of the component count (so length 0 is accepted); in the error
case no native call is produced, the error being the whole outcome. -/
theorem meshAccessor_length_validation (a : MeshAttributeAccessor)
    (i outLen : Nat) (v : List ℚ)
    (_hc : a._componentCount = 1 ∨ a._componentCount = 2 ∨
      a._componentCount = 3 ∨ a._componentCount = 4) :
    (exceptOk (a.get i outLen) = true ↔ outLen % a._componentCount = 0) ∧
    (outLen % a._componentCount ≠ 0 →
      a.get i outLen = .error (multipleErrMsg outLen a._componentCount)) ∧
    (exceptOk (a.set i v) = true ↔ v.length % a._componentCount = 0) ∧
    (v.length % a._componentCount ≠ 0 →
      a.set i v = .error (multipleErrMsg v.length a._componentCount)) := by
  refine ⟨?_, fun h => ?_, ?_, fun h => ?_⟩
  · by_cases h : outLen % a._componentCount = 0 <;>
      simp [MeshAttributeAccessor.get, h, exceptOk]
  · simp [MeshAttributeAccessor.get, h]
  · by_cases h : v.length % a._componentCount = 0 <;>
      simp [MeshAttributeAccessor.set, h, exceptOk]
  · simp [MeshAttributeAccessor.set, h]

/-- Claim C3 witness: on the 3-component position accessor, a length-6
buffer passes validation and a length-4 buffer is rejected with the
descriptive error. -/
theorem meshAccessor_length_validation_witness :
    exceptOk (positionAccessor.get 1 6) = true ∧
    positionAccessor.get 1 4 = .error (multipleErrMsg 4 3) ∧
    exceptOk (positionAccessor.set 1 [5, 6, 7]) = true ∧
    positionAccessor.set 1 [5, 6] = .error (multipleErrMsg 2 3) := by
  refine ⟨?_, ?_, ?_, ?_⟩
  · exact (meshAccessor_length_validation positionAccessor 1 6 []
      (by decide)).1.mpr (by decide)
  · exact (meshAccessor_length_validation positionAccessor 1 4 []
      (by decide)).2.1 (by decide)
  · exact (meshAccessor_length_validation positionAccessor 1 0 [5, 6, 7]
      (by decide)).2.2.1.mpr (by decide)
  · exact (meshAccessor_length_validation positionAccessor 1 0 [5, 6]
      (by decide)).2.2.2 (by decide)

/-- Claim C4: assigning any value to a property resolving to a Font-typed
parameter always throws the explicit unsupported-operation error — the
set handler never reaches a native call and never silently succeeds. -/
theorem materialSet_font_always_errors (definition : MaterialDefinition)
    (matIndex : Nat) (prop : String) (param : MaterialParam) (value : JSValue)
    (hp : definition prop = some param) (ht : param.type.type = .Font) :
    materialSet definition matIndex prop value
      = .error "Setting font properties is currently unsupported." := by
  simp [materialSet, hp, ht]

/-- Claim C4 witness: setting the "font" parameter of the sample
definition with a number, a texture wrapper and an array all throw. -/
theorem materialSet_font_always_errors_witness :
    materialSet sampleMaterialDefinition 7 "font" (.num 3)
      = .error "Setting font properties is currently unsupported." ∧
    materialSet sampleMaterialDefinition 7 "font" (.tex ⟨9⟩)
      = .error "Setting font properties is currently unsupported." ∧
    materialSet sampleMaterialDefinition 7 "font" (.arr [1, 2])
      = .error "Setting font properties is currently unsupported." :=
  ⟨materialSet_font_always_errors sampleMaterialDefinition 7 "font" _ _ rfl rfl,
   materialSet_font_always_errors sampleMaterialDefinition 7 "font" _ _ rfl rfl,
   materialSet_font_always_errors sampleMaterialDefinition 7 "font" _ _ rfl rfl⟩

/-- Claim C5 counterexample: assigning a value that is neither a raw
numeric handle nor a texture wrapper (here an array) to the Sampler
parameter is not a type error — the set handler forwards the value
unchanged to the native uint setter and succeeds. -/
theorem materialSet_sampler_no_type_error :
    materialSet sampleMaterialDefinition 7 "diffuseTexture" (.arr [1, 2])
      = .nativeUint 7 1 (.arr [1, 2]) := rfl

/-- Claim C5 (amended): setting a Sampler parameter with a texture
wrapper `t` stores exactly the handle `t.id`, producing the same native
call as setting the raw numeric handle; any other value is forwarded
unchanged to the native uint setter rather than rejected with a
host-side type error. -/
theorem materialSet_sampler_handle_extraction (definition : MaterialDefinition)
    (matIndex : Nat) (prop : String) (param : MaterialParam) (t : Texture)
    (hp : definition prop = some param) (ht : param.type.type = .Sampler) :
    materialSet definition matIndex prop (.tex t)
      = materialSet definition matIndex prop (.num (t.id : ℚ)) ∧
    materialSet definition matIndex prop (.tex t)
      = .nativeUint matIndex param.index (.num (t.id : ℚ)) ∧
    (∀ x : ℚ, materialSet definition matIndex prop (.num x)
      = .nativeUint matIndex param.index (.num x)) ∧
    (∀ xs : List ℚ, materialSet definition matIndex prop (.arr xs)
      = .nativeUint matIndex param.index (.arr xs)) := by
  refine ⟨?_, ?_, fun x => ?_, fun xs => ?_⟩ <;> simp [materialSet, hp, ht]

/-- Claim C5 witness: on the sample definition's Sampler parameter,
wrapping handle 42 in a texture stores the same native call as the raw
handle 42, and numbers and arrays pass through to the uint setter. -/
theorem materialSet_sampler_handle_extraction_witness :
    materialSet sampleMaterialDefinition 7 "diffuseTexture" (.tex ⟨42⟩)
      = materialSet sampleMaterialDefinition 7 "diffuseTexture" (.num 42) ∧
    materialSet sampleMaterialDefinition 7 "diffuseTexture" (.tex ⟨42⟩)
      = .nativeUint 7 1 (.num 42) ∧
    materialSet sampleMaterialDefinition 7 "diffuseTexture" (.num 8)
      = .nativeUint 7 1 (.num 8) := by
  have h := materialSet_sampler_handle_extraction sampleMaterialDefinition
    7 "diffuseTexture" _ ⟨42⟩ rfl rfl
  exact ⟨h.1, h.2.1, h.2.2.1 8⟩

/-- Claim C6 counterexample: the Float branch of the set handler has no
length guard — assigning an array of length 3 to the 4-component
"diffuseColor" parameter reaches the native float setter with count 3
instead of being rejected before the call. -/
theorem materialSet_float_no_length_guard :
    materialSet sampleMaterialDefinition 7 "diffuseColor" (.arr [1, 2, 3])
      = .nativeFloat 7 2 [1, 2, 3] (some 3) ∧
    (sampleMaterialDefinition "diffuseColor").map
      (fun p => p.type.componentCount) = some 4 := ⟨rfl, rfl⟩

/-- Claim C6 (amended): a Float-typed parameter accepts a scalar number
(staged as a single float with count 1, whatever the declared component
count) and an array of any length, whose length is forwarded unchecked
as the count of the native call; no accessor guard compares the length
against the declared component count before the call. -/
theorem materialSet_float_forwards_length (definition : MaterialDefinition)
    (matIndex : Nat) (prop : String) (param : MaterialParam) (x : ℚ)
    (xs : List ℚ)
    (hp : definition prop = some param) (ht : param.type.type = .Float) :
    materialSet definition matIndex prop (.num x)
      = .nativeFloat matIndex param.index [x] (some 1) ∧
    materialSet definition matIndex prop (.arr xs)
      = .nativeFloat matIndex param.index xs (some xs.length) := by
  constructor <;>
    simp [materialSet, hp, ht, JSValue.stagedFloats, JSValue.jsLength]

/-- Claim C6 witness: on the 4-component "diffuseColor" parameter a
scalar is staged with count 1 and a length-4 array with count 4. -/
theorem materialSet_float_forwards_length_witness :
    materialSet sampleMaterialDefinition 7 "diffuseColor" (.num 5)
      = .nativeFloat 7 2 [5] (some 1) ∧
    materialSet sampleMaterialDefinition 7 "diffuseColor" (.arr [1, 2, 3, 4])
      = .nativeFloat 7 2 [1, 2, 3, 4] (some 4) := by
  have h := materialSet_float_forwards_length sampleMaterialDefinition
    7 "diffuseColor" _ 5 [1, 2, 3, 4] rfl rfl
  exact ⟨h.1, h.2⟩

/-- Claim C7: reading a property that resolves to a parameter the native
runtime reports unset yields the absent result (`undefined`), which is
neither a thrown error nor a materialized value such as a numeric zero;
a name absent from the table falls through to per-instance storage. -/
theorem materialGet_unset_absent (definition : MaterialDefinition)
    (matIndex : Nat) (prop prop2 : String) (param : MaterialParam)
    (heap : NativeMaterialHeap)
    (hp : definition prop = some param)
    (hunset : heap.paramIsSet matIndex param.index = false)
    (habsent : definition prop2 = none) :
    materialGet definition matIndex prop heap = .ok .absent ∧
    materialGet definition matIndex prop2 heap = .ok .fromInstance ∧
    (∀ v, MaterialGetOutcome.absent ≠ .value v) := by
  refine ⟨?_, ?_, fun v h => by cases h⟩
  · simp [materialGet, hp, hunset]
  · simp [materialGet, habsent]

/-- Claim C7 witness: with every parameter unset, reading "shininess"
yields the absent result and reading a name outside the table falls
through to the instance. -/
theorem materialGet_unset_absent_witness :
    materialGet sampleMaterialDefinition 7 "shininess" unsetHeap
      = .ok .absent ∧
    materialGet sampleMaterialDefinition 7 "alignment" unsetHeap
      = .ok .fromInstance := by
  have h := materialGet_unset_absent sampleMaterialDefinition 7 "shininess"
    "alignment" _ unsetHeap rfl rfl rfl
  exact ⟨h.1, h.2.1⟩

/-- Claim C8: immediately after `destroy` returns, the component
wrapper's `_manager` and `_id` and the object wrapper's `objectId` are
cleared to the invalid sentinel (`undefined`/`null`, modelled `none`)
and no longer hold the previous handle; the native remove call itself
receives the pre-clear handles. -/
theorem destroy_clears_handles (c : Component) (o : WLObject)
    (m i : Int) (oid : Nat)
    (hm : c._manager = some m) (hi : c._id = some i)
    (ho : o.objectId = some oid) :
    (c.destroy).2._manager = none ∧ (c.destroy).2._id = none ∧
    (c.destroy).2._manager ≠ c._manager ∧ (c.destroy).2._id ≠ c._id ∧
    (c.destroy).1 = { manager := some m, id := some i } ∧
    (o.destroy).2.objectId = none ∧ (o.destroy).2.objectId ≠ o.objectId ∧
    (o.destroy).1 = { objectId := some oid } := by
  simp [Component.destroy, WLObject.destroy, hm, hi, ho]

/-- Claim C8 witness: destroying a component at manager 2, id 5 and an
object with id 9 clears the handle fields. -/
theorem destroy_clears_handles_witness :
    (Component.destroy ⟨some 2, some 5, none, none⟩).2._manager = none ∧
    (Component.destroy ⟨some 2, some 5, none, none⟩).2._id = none ∧
    (WLObject.destroy ⟨some 9⟩).2.objectId = none := by
  have h := destroy_clears_handles ⟨some 2, some 5, none, none⟩ ⟨some 9⟩
    2 5 9 rfl rfl rfl
  exact ⟨h.1, h.2.1, h.2.2.2.2.2.1⟩

/-- Claim C9: `Component.equals` is true exactly when the argument is
non-null/non-undefined with the same `_manager` and `_id`, and
`$Object.equals` exactly when it is non-null with the same `objectId`;
no other field of either side influences the result. -/
theorem equals_is_handle_equality (a : Component) (b : Option Component)
    (x : WLObject) (y : Option WLObject) :
    (a.equals b = true ↔
      ∃ b2, b = some b2 ∧ a._manager = b2._manager ∧ a._id = b2._id) ∧
    (x.equals y = true ↔ ∃ y2, y = some y2 ∧ x.objectId = y2.objectId) ∧
    (∀ a2 b2 : Component, a._manager = a2._manager → a._id = a2._id →
      a.equals (some b2) = a2.equals (some b2)) ∧
    (∀ b2 b3 : Component, b2._manager = b3._manager → b2._id = b3._id →
      a.equals (some b2) = a.equals (some b3)) ∧
    (∀ x2 y2 : WLObject, x.objectId = x2.objectId →
      x.equals (some y2) = x2.equals (some y2)) := by
  refine ⟨?_, ?_, fun a2 b2 h1 h2 => ?_, fun b2 b3 h1 h2 => ?_,
    fun x2 y2 h1 => ?_⟩
  · cases b with
    | none => simp [Component.equals]
    | some b2 => simp [Component.equals]
  · cases y with
    | none => simp [WLObject.equals]
    | some y2 => simp [WLObject.equals]
  · simp [Component.equals, h1, h2]
  · simp [Component.equals, h1, h2]
  · simp [WLObject.equals, h1]

/-- Claim C9 witness: two components agreeing on manager 1 and id 2 are
equal even though the cached `_object` and `_type` fields differ, and two
object wrappers with object id 3 are equal. -/
theorem equals_is_handle_equality_witness :
    Component.equals ⟨some 1, some 2, none, none⟩
      (some ⟨some 1, some 2, some 7, some "collision"⟩) = true ∧
    WLObject.equals ⟨some 3⟩ (some ⟨some 3⟩) = true := by
  refine ⟨?_, ?_⟩
  · exact (equals_is_handle_equality ⟨some 1, some 2, none, none⟩
      (some ⟨some 1, some 2, some 7, some "collision"⟩) ⟨some 3⟩
      (some ⟨some 3⟩)).1.mpr ⟨_, rfl, rfl, rfl⟩
  · exact (equals_is_handle_equality ⟨some 1, some 2, none, none⟩ none
      ⟨some 3⟩ (some ⟨some 3⟩)).2.1.mpr ⟨_, rfl, rfl⟩

/-- Claim C10: `hitCount` is the minimum of the native hit counter and 4
(hence never exceeds 4), and `locations` and `normals` each return
exactly `hitCount` vectors of 3 components. -/
theorem rayHit_count_and_shapes (r : RayHit) (heap : EngineHeap) :
    r.hitCount heap = min (heap.u32 (4 * (r._ptr / 4 + 30))) 4 ∧
    r.hitCount heap ≤ 4 ∧
    (r.locations heap).length = r.hitCount heap ∧
    (r.normals heap).length = r.hitCount heap ∧
    (∀ v, v ∈ r.locations heap → v.length = 3) ∧
    (∀ v, v ∈ r.normals heap → v.length = 3) := by
  refine ⟨rfl, min_le_right _ _, by simp [RayHit.locations],
    by simp [RayHit.normals], fun v hv => ?_, fun v hv => ?_⟩
  · simp only [RayHit.locations, List.mem_map] at hv
    obtain ⟨i, _, rfl⟩ := hv
    simp
  · simp only [RayHit.normals, List.mem_map] at hv
    obtain ⟨i, _, rfl⟩ := hv
    simp

/-- Claim C10 witness: with a native counter of 2 at block pointer 16,
`hitCount` is at most 4, both getters return `hitCount` vectors, and a
member location vector has 3 components. -/
theorem rayHit_count_and_shapes_witness :
    (RayHit.mk 16).hitCount sampleEngineHeap ≤ 4 ∧
    ((RayHit.mk 16).locations sampleEngineHeap).length
      = (RayHit.mk 16).hitCount sampleEngineHeap ∧
    ((RayHit.mk 16).normals sampleEngineHeap).length
      = (RayHit.mk 16).hitCount sampleEngineHeap ∧
    ([(0 : ℚ), 0, 0] : List ℚ).length = 3 := by
  have h := rayHit_count_and_shapes (RayHit.mk 16) sampleEngineHeap
  exact ⟨h.2.1, h.2.2.1, h.2.2.2.1, h.2.2.2.2.1 [(0 : ℚ), 0, 0] (by decide)⟩
